import Mathlib

/-!
# Verification of the Kanban board task service and drag interaction

Shallow embedding of the repository's task data model, the four service
handlers (`getTasks`/`getTasksByStatus`, `updateTask`, `createTask`,
`deleteTask`), the Zod input schemas, and the client-side overdue
computation and drop handler.  Timestamps are modelled as `Nat`
(milliseconds since the epoch); a SQL/JS `null` is `none`; a field
absent from an update request (`undefined`) is the outer `none` of an
`Option (Option _)`.  The database table is a `List Task` in insertion
order, with explicit state passing for each handler.
-/

namespace Kanban

/-- The `task_status` Postgres enum / Zod `taskStatusSchema`:
`['todo', 'in_progress', 'done']`. -/
inductive TaskStatus where
  | todo
  | in_progress
  | done
deriving DecidableEq, Repr

/-- A row of the `tasks` table (`tasksTable` in the drizzle schema and
`taskSchema` in the Zod schema): `id`, non-null `title`, nullable
`description`, nullable `due_date`, non-null `status`, non-null
`created_at` and `updated_at` timestamps. -/
structure Task where
  id : Nat
  title : String
  description : Option String
  due_date : Option Nat
  status : TaskStatus
  created_at : Nat
  updated_at : Nat
deriving DecidableEq, Repr

/-- Errors raised by the service layer: the handlers throw
`Error('Task with ID ... not found')` and Zod raises a validation
failure for an empty title. -/
inductive TaskError where
  | notFound (id : Nat)
  | validation (msg : String)
deriving DecidableEq, Repr

/-- `updateTaskInputSchema`: `id` required; `title` optional but
non-empty when given; `description` and `due_date` each
`.nullable().optional()`, so the outer `Option` is presence in the
request and the inner `Option` is the stored nullable value; `status`
optional. -/
structure UpdateTaskInput where
  id : Nat
  title : Option String
  description : Option (Option String)
  due_date : Option (Option Nat)
  status : Option TaskStatus
deriving DecidableEq, Repr

/-- The field application step of `updateTask` (handler lines 50-69):
starts from `updated_at := now()` and adds each field of the request
that is not `undefined`, leaving absent fields at their stored value. -/
def applyUpdate (input : UpdateTaskInput) (now : Nat) (t : Task) : Task :=
  { t with
    updated_at := now
    title := input.title.getD t.title
    description := input.description.getD t.description
    due_date := input.due_date.getD t.due_date
    status := input.status.getD t.status }

/-- `updateTask` (the real handler, `src/server/src/handlers`): selects
the row with the given id; if none exists, throws
`Task with ID ... not found`; otherwise applies the present fields
(always bumping `updated_at` to `now()`) to every row matching the id
via `UPDATE ... WHERE id = input.id` and returns the first row of the
`RETURNING` result. -/
def updateTask (store : List Task) (input : UpdateTaskInput) (now : Nat) :
    List Task × Except TaskError Task :=
  match store.find? (fun t => t.id == input.id) with
  | none => (store, .error (.notFound input.id))
  | some t =>
      (store.map (fun r => if r.id == input.id then applyUpdate input now r else r),
       .ok (applyUpdate input now t))

/-- `createTaskInputSchema`: `title` with `z.string().min(1)`, nullable
`description` and `due_date`, `status` defaulting to `todo` (the
default is applied by Zod before the handler runs, so here `status` is
already a concrete value). -/
structure CreateTaskInput where
  title : String
  description : Option String
  due_date : Option Nat
  status : TaskStatus
deriving DecidableEq, Repr

/-- The validation step of `createTaskInputSchema` on the title:
`z.string().min(1, 'Title is required')` — rejects only a
string of length zero, with no trimming. -/
def createTaskInputCheck (input : CreateTaskInput) :
    Except TaskError CreateTaskInput :=
  if input.title.length < 1 then .error (.validation "Title is required")
  else .ok input

/-- `createTask` (placeholder handler in `src/server/src/handlers`):
performs no insert and returns an echo of the input with `id = 0` and
both timestamps freshly read. -/
def createTask (store : List Task) (input : CreateTaskInput) (now : Nat) :
    List Task × Task :=
  (store,
   { id := 0
     title := input.title
     description := input.description
     due_date := input.due_date
     status := input.status
     created_at := now
     updated_at := now })

/-- The create endpoint: Zod validation of the request body followed by
the handler. -/
def createTaskEndpoint (store : List Task) (input : CreateTaskInput) (now : Nat) :
    List Task × Except TaskError Task :=
  match createTaskInputCheck input with
  | .error e => (store, .error e)
  | .ok checked =>
      let r := createTask store checked now
      (r.1, .ok r.2)

/-- `deleteTaskInputSchema`: just the id. -/
structure DeleteTaskInput where
  id : Nat
deriving DecidableEq, Repr

/-- `deleteTask` (placeholder handler `src/server/src/handlers/delete_task.ts`):
performs no lookup and no removal, and unconditionally resolves with
`{ success: true, id: input.id }`. -/
def deleteTask (store : List Task) (input : DeleteTaskInput) :
    List Task × (Bool × Nat) :=
  (store, (true, input.id))

/-- `getTasksByStatusInputSchema`: an optional status filter. -/
structure GetTasksByStatusInput where
  status : Option TaskStatus
deriving DecidableEq, Repr

/-- `getTasks` (placeholder handler `src/server/src/handlers/get_tasks.ts`):
reads nothing from the table and returns `[]` for every input. -/
def getTasks (_store : List Task) (_input : Option GetTasksByStatusInput) :
    List Task :=
  []

/-- `getTasksByStatus` (placeholder handler, same file): also returns
`[]` for every input. -/
def getTasksByStatus (_store : List Task) (_input : GetTasksByStatusInput) :
    List Task :=
  []

/-- Milliseconds in one calendar day; `Date.toDateString` renders the
calendar day of a timestamp, modelled as the day index `t / msPerDay`. -/
def msPerDay : Nat := 86400000

/-- The calendar day of a timestamp, the embedding of
`new Date(t).toDateString()`: two timestamps render the same string
exactly when they fall in the same day. -/
def dateString (t : Nat) : Nat := t / msPerDay

/-- `isOverdue` (client `App.tsx`): a null `due_date` is not overdue;
otherwise overdue when the due instant is strictly before the current
instant and the two instants render different `toDateString` values. -/
def isOverdue (dueDate : Option Nat) (now : Nat) : Bool :=
  match dueDate with
  | none => false
  | some due => decide (due < now) && decide (dateString now ≠ dateString due)

/-- The claim's phrasing of overdue, for comparison with `isOverdue`:
the due date is set and falls on a calendar day strictly before the
current calendar day. -/
def overdueSpec (dueDate : Option Nat) (now : Nat) : Bool :=
  match dueDate with
  | none => false
  | some due => decide (dateString due < dateString now)

/-- The client-side board state relevant to the drag interaction:
the `tasks`, `draggedTask` and `dragOverColumn` `useState` cells of
`App.tsx`. -/
structure BoardState where
  tasks : List Task
  draggedTask : Option Task
  dragOverColumn : Option TaskStatus
deriving DecidableEq, Repr

/-- The body of the `trpc.updateTask.mutate` call issued by
`handleDrop`: the dragged task's id and the target column's status. -/
structure UpdateCall where
  id : Nat
  status : TaskStatus
deriving DecidableEq, Repr

/-- `handleDrop` (client `App.tsx`): clears the highlighted column,
then, when no task is in flight or its status already equals the
target column's, clears the in-flight task and returns without a
network call; otherwise issues one update call, on success replaces
the task's local copy by the server-returned row, on failure leaves
the list unchanged, and clears the in-flight task in both cases.  The
`server` argument stands for the network: the response to the one call
the handler may issue.  Returns the new state and the issued call, if
any. -/
def handleDrop (s : BoardState) (newStatus : TaskStatus)
    (server : UpdateCall → Except TaskError Task) :
    BoardState × Option UpdateCall :=
  let s0 : BoardState := { s with dragOverColumn := none }
  match s0.draggedTask with
  | none => ({ s0 with draggedTask := none }, none)
  | some dragged =>
      if dragged.status = newStatus then
        ({ s0 with draggedTask := none }, none)
      else
        let call : UpdateCall := { id := dragged.id, status := newStatus }
        match server call with
        | .ok updatedTask =>
            ({ s0 with
               tasks := s0.tasks.map
                 (fun t => if t.id == dragged.id then updatedTask else t)
               draggedTask := none }, some call)
        | .error _ => ({ s0 with draggedTask := none }, some call)

/-- C5: an `updateTask` call whose id matches no row in the store fails
with the not-found error and leaves the store exactly as it was: no row
is created and no existing row is altered. -/
theorem updateTask_missing_id_fails
    (store : List Task) (input : UpdateTaskInput) (now : Nat)
    (h : ∀ r ∈ store, r.id ≠ input.id) :
    updateTask store input now = (store, .error (.notFound input.id)) := by
  have hf : store.find? (fun r => r.id == input.id) = none := by
    rw [List.find?_eq_none]
    intro r hr
    simpa using h r hr
  simp [updateTask, hf]

/-- C1: when `updateTask` finds a row with the requested id, the result
is a task in which each supplied field overwrites the stored value, a
nullable field explicitly supplied as null is cleared to null, an
omitted field keeps the stored value, `updated_at` is set to the
current instant unconditionally, and that returned task is the row now
stored under the requested id. -/
theorem updateTask_applies_supplied_fields
    (store : List Task) (input : UpdateTaskInput) (now : Nat) (t : Task)
    (ht : store.find? (fun r => r.id == input.id) = some t) :
    ∃ u : Task,
      (updateTask store input now).2 = .ok u ∧
      u.title = input.title.getD t.title ∧
      u.description = input.description.getD t.description ∧
      u.due_date = input.due_date.getD t.due_date ∧
      u.status = input.status.getD t.status ∧
      (input.description = some none → u.description = none) ∧
      (input.due_date = some none → u.due_date = none) ∧
      u.updated_at = now ∧
      (updateTask store input now).1.find? (fun r => r.id == input.id) = some u := by
  have hid : t.id = input.id := by simpa using List.find?_some ht
  refine ⟨applyUpdate input now t, ?_, rfl, rfl, rfl, rfl, ?_, ?_, rfl, ?_⟩
  · simp [updateTask, ht]
  · intro h; simp [applyUpdate, h]
  · intro h; simp [applyUpdate, h]
  · have h1 : (updateTask store input now).1
        = store.map (fun r => if r.id == input.id then applyUpdate input now r else r) := by
      simp [updateTask, ht]
    have hcomp : ((fun r : Task => r.id == input.id) ∘
        (fun r => if r.id == input.id then applyUpdate input now r else r))
        = fun r : Task => r.id == input.id := by
      funext r
      by_cases hr : (r.id == input.id) = true
      · simp [Function.comp, hr, applyUpdate]
      · simp [Function.comp, hr]
    rw [h1, List.find?_map, hcomp, ht]
    simp [hid]

/-- C7: a successful `updateTask` keeps the store the same length,
leaves every row whose id differs from the input id untouched in every
field, rewrites only rows with the matching id (with unique ids,
exactly one such row exists), and the rewritten row keeps its `id` and
`created_at`. -/
theorem updateTask_frame
    (store : List Task) (input : UpdateTaskInput) (now : Nat) (t : Task)
    (hnodup : (store.map Task.id).Nodup)
    (ht : store.find? (fun r => r.id == input.id) = some t) :
    ((store.map Task.id).count input.id = 1) ∧
    (updateTask store input now).1.length = store.length ∧
    (∀ i : Nat, ∀ r : Task, store[i]? = some r → r.id ≠ input.id →
      (updateTask store input now).1[i]? = some r) ∧
    (∀ i : Nat, ∀ r : Task, store[i]? = some r → r.id = input.id →
      (updateTask store input now).1[i]? = some (applyUpdate input now r) ∧
      (applyUpdate input now r).id = r.id ∧
      (applyUpdate input now r).created_at = r.created_at) := by
  have hid : t.id = input.id := by
    have := List.find?_some ht
    simpa using this
  have hmem : t ∈ store := List.mem_of_find?_eq_some ht
  have h1 : (updateTask store input now).1
      = store.map (fun r => if r.id == input.id then applyUpdate input now r else r) := by
    simp [updateTask, ht]
  refine ⟨?_, ?_, ?_, ?_⟩
  · exact List.count_eq_one_of_mem hnodup
      (List.mem_map.2 ⟨t, hmem, hid⟩)
  · rw [h1, List.length_map]
  · intro i r hr hne
    rw [h1, List.getElem?_map, hr]
    simp [hne]
  · intro i r hr heq
    refine ⟨?_, rfl, rfl⟩
    rw [h1, List.getElem?_map, hr]
    simp [heq]

/-- C6: the client `isOverdue` agrees everywhere with the calendar-day
rule of the claim: a task is overdue exactly when its due date is set
and falls on a calendar day strictly before the current one; a missing
due date is never overdue, and a due date of the current day is never
overdue whatever its time-of-day component. -/
theorem isOverdue_eq_overdueSpec (dueDate : Option Nat) (now : Nat) :
    isOverdue dueDate now = overdueSpec dueDate now := by
  cases dueDate with
  | none => rfl
  | some due =>
      show (decide (due < now) && decide (dateString now ≠ dateString due))
        = decide (dateString due < dateString now)
      rw [← Bool.decide_and, decide_eq_decide]
      constructor
      · rintro ⟨h1, h2⟩
        exact Nat.lt_of_le_of_ne (Nat.div_le_div_right (Nat.le_of_lt h1))
          (fun he => h2 he.symm)
      · intro h
        refine ⟨?_, (Nat.ne_of_lt h).symm⟩
        by_contra hc
        push_neg at hc
        exact absurd h (Nat.not_lt.2 (Nat.div_le_div_right hc))

/-- C8: dropping an in-flight task onto the column of its own current
status issues no update call, leaves the local task list unchanged, and
returns the drag state machine to idle with the in-flight task and the
highlighted column both cleared. -/
theorem handleDrop_same_status_noop
    (s : BoardState) (newStatus : TaskStatus)
    (server : UpdateCall → Except TaskError Task) (dragged : Task)
    (h1 : s.draggedTask = some dragged) (h2 : dragged.status = newStatus) :
    handleDrop s newStatus server =
      ({ tasks := s.tasks, draggedTask := none, dragOverColumn := none }, none) := by
  simp [handleDrop, h1, h2]

/-- C10: a drop that fires with no task in flight issues no update
call, leaves the task list unchanged, clears the highlighted drop
target, and leaves the machine idle. -/
theorem handleDrop_no_inflight_noop
    (s : BoardState) (newStatus : TaskStatus)
    (server : UpdateCall → Except TaskError Task)
    (h : s.draggedTask = none) :
    handleDrop s newStatus server =
      ({ tasks := s.tasks, draggedTask := none, dragOverColumn := none }, none) := by
  simp [handleDrop, h]

/-- C9 counterexample: the title consisting of a single space is empty
after trimming, yet the create endpoint accepts it — Zod's
`min(1)` counts characters without trimming, so the call does not fail
with a validation error as the claim requires. -/
theorem createTask_whitespace_title_accepted :
    (∀ c ∈ (" ").toList, c = ' ') ∧
    (createTaskEndpoint []
        { title := " ", description := none, due_date := none, status := .todo } 5).2
      = .ok { id := 0, title := " ", description := none, due_date := none,
              status := .todo, created_at := 5, updated_at := 5 } := by
  exact ⟨by decide, rfl⟩

/-- C9 (amended): a createTask call fails with the validation error
exactly when the title is the empty string, in which case the store is
unchanged (no row inserted); any title of length at least one —
including a whitespace-only title — passes validation and the call
succeeds. -/
theorem createTask_empty_title_validation
    (store : List Task) (input : CreateTaskInput) (now : Nat) :
    (input.title = "" →
      createTaskEndpoint store input now
        = (store, .error (.validation "Title is required"))) ∧
    (input.title ≠ "" →
      createTaskEndpoint store input now
        = (store, .ok (createTask store input now).2)) := by
  constructor
  · intro h
    simp [createTaskEndpoint, createTaskInputCheck, h]
  · intro h
    have hlen : ¬ input.title.length < 1 := by
      have h0 : input.title.length ≠ 0 := by
        intro hz
        apply h
        cases hl : input.title with
        | mk data =>
            rw [hl] at hz
            cases data with
            | nil => rfl
            | cons c cs => simp [String.length, hl] at hz
      omega
    simp [createTaskEndpoint, createTaskInputCheck, hlen, createTask]

/-- A concrete stored row used to exercise the placeholder handlers. -/
def sampleTask : Task :=
  { id := 1, title := "Todo Task 1", description := some "First todo task",
    due_date := some 1735603200000, status := .todo,
    created_at := 1000, updated_at := 1000 }

/-- C2: the `getTasks` and `getTasksByStatus` handlers are placeholder
stubs that return the empty list even when the store holds a task of
the requested status, contradicting their own doc comments and the
repository's tests. -/
theorem getTasks_ignores_store :
    getTasks [sampleTask] none = [] ∧
    getTasks [sampleTask] (some { status := some .todo }) = [] ∧
    getTasksByStatus [sampleTask] { status := some .todo } = [] ∧
    ([sampleTask] : List Task) ≠ [] :=
  ⟨rfl, rfl, rfl, by decide⟩

/-- C3: the `deleteTask` handler is a placeholder stub: it reports
`success := true` even when no row has the requested id, and when a
row does match it leaves the store untouched instead of removing the
row, contradicting its own doc comments and the repository's tests. -/
theorem deleteTask_ignores_store :
    deleteTask ([] : List Task) { id := 99999 } = ([], (true, 99999)) ∧
    deleteTask [sampleTask] { id := sampleTask.id }
      = ([sampleTask], (true, sampleTask.id)) :=
  ⟨rfl, rfl⟩

/-- C4: the `createTask` handler is a placeholder stub: on a valid
input it inserts no row (the store is unchanged) and returns a task
with `id = 0`, contradicting the claim's `id > 0` and persistence
requirements as well as the repository's tests. -/
theorem createTask_placeholder_no_insert :
    (createTask []
        { title := "Quick task", description := none, due_date := none,
          status := .todo } 1000).1 = [] ∧
    (createTask []
        { title := "Quick task", description := none, due_date := none,
          status := .todo } 1000).2.id = 0 :=
  ⟨rfl, rfl⟩

/-- A stored row used as the target of the update witnesses. -/
def wTask : Task :=
  { id := 1, title := "Original Title", description := some "Original description",
    due_date := some 100, status := .todo, created_at := 10, updated_at := 10 }

/-- A second stored row with a different id, for the frame witness. -/
def wOther : Task :=
  { id := 2, title := "Another Task", description := none,
    due_date := none, status := .in_progress, created_at := 20, updated_at := 20 }

/-- An update request supplying a new title, an explicit null
description, an omitted due date and a new status. -/
def wInput : UpdateTaskInput :=
  { id := 1, title := some "Updated Title", description := some none,
    due_date := none, status := some .in_progress }

/-- An update request whose id matches no stored row. -/
def w5Input : UpdateTaskInput :=
  { id := 3, title := none, description := none, due_date := none, status := none }

theorem updateTask_applies_supplied_fields_witness :
    ([wTask] : List Task).find? (fun r => r.id == wInput.id) = some wTask ∧
    ∃ u : Task,
      (updateTask [wTask] wInput 99).2 = .ok u ∧
      u.title = wInput.title.getD wTask.title ∧
      u.description = wInput.description.getD wTask.description ∧
      u.due_date = wInput.due_date.getD wTask.due_date ∧
      u.status = wInput.status.getD wTask.status ∧
      (wInput.description = some none → u.description = none) ∧
      (wInput.due_date = some none → u.due_date = none) ∧
      u.updated_at = 99 ∧
      (updateTask [wTask] wInput 99).1.find? (fun r => r.id == wInput.id) = some u :=
  ⟨by decide, updateTask_applies_supplied_fields [wTask] wInput 99 wTask (by decide)⟩

theorem updateTask_missing_id_fails_witness :
    (∀ r ∈ ([wTask] : List Task), r.id ≠ w5Input.id) ∧
    updateTask [wTask] w5Input 99 = ([wTask], .error (.notFound w5Input.id)) :=
  ⟨by decide, updateTask_missing_id_fails [wTask] w5Input 99 (by decide)⟩

theorem updateTask_frame_witness :
    (([wTask, wOther].map Task.id).Nodup ∧
     ([wTask, wOther] : List Task).find? (fun r => r.id == wInput.id) = some wTask) ∧
    (([wTask, wOther].map Task.id).count wInput.id = 1) ∧
    (updateTask [wTask, wOther] wInput 99).1.length
      = ([wTask, wOther] : List Task).length ∧
    (∀ i : Nat, ∀ r : Task,
      ([wTask, wOther] : List Task)[i]? = some r → r.id ≠ wInput.id →
      (updateTask [wTask, wOther] wInput 99).1[i]? = some r) ∧
    (∀ i : Nat, ∀ r : Task,
      ([wTask, wOther] : List Task)[i]? = some r → r.id = wInput.id →
      (updateTask [wTask, wOther] wInput 99).1[i]? = some (applyUpdate wInput 99 r) ∧
      (applyUpdate wInput 99 r).id = r.id ∧
      (applyUpdate wInput 99 r).created_at = r.created_at) :=
  ⟨⟨by decide, by decide⟩,
   updateTask_frame [wTask, wOther] wInput 99 wTask (by decide) (by decide)⟩

/-- A board with one in-flight task, for the drop witnesses. -/
def wBoard : BoardState :=
  { tasks := [wTask], draggedTask := some wTask, dragOverColumn := some .todo }

/-- A board with no in-flight task. -/
def wBoardIdle : BoardState :=
  { tasks := [wTask], draggedTask := none, dragOverColumn := some .done }

/-- A server stub for the drop witnesses; never consulted there. -/
def wServer : UpdateCall → Except TaskError Task :=
  fun call => .error (.notFound call.id)

theorem handleDrop_same_status_noop_witness :
    (wBoard.draggedTask = some wTask ∧ wTask.status = TaskStatus.todo) ∧
    handleDrop wBoard .todo wServer
      = ({ tasks := wBoard.tasks, draggedTask := none, dragOverColumn := none },
         none) :=
  ⟨⟨rfl, rfl⟩, handleDrop_same_status_noop wBoard .todo wServer wTask rfl rfl⟩

theorem handleDrop_no_inflight_noop_witness :
    wBoardIdle.draggedTask = none ∧
    handleDrop wBoardIdle .todo wServer
      = ({ tasks := wBoardIdle.tasks, draggedTask := none, dragOverColumn := none },
         none) :=
  ⟨rfl, handleDrop_no_inflight_noop wBoardIdle .todo wServer rfl⟩

/-- A create request with an empty title. -/
def wEmptyInput : CreateTaskInput :=
  { title := "", description := none, due_date := none, status := .todo }

/-- A create request whose title is a single space. -/
def wSpaceInput : CreateTaskInput :=
  { title := " ", description := none, due_date := none, status := .todo }

theorem createTask_empty_title_validation_witness :
    (wEmptyInput.title = "" ∧
      createTaskEndpoint [] wEmptyInput 5
        = ([], .error (.validation "Title is required"))) ∧
    (wSpaceInput.title ≠ "" ∧
      createTaskEndpoint [] wSpaceInput 5
        = ([], .ok (createTask [] wSpaceInput 5).2)) :=
  ⟨⟨rfl, (createTask_empty_title_validation [] wEmptyInput 5).1 rfl⟩,
   ⟨by decide, (createTask_empty_title_validation [] wSpaceInput 5).2 (by decide)⟩⟩

end Kanban
